import Mathlib

/-!
Shallow embedding of the manual JSON-RPC-over-HTTP MCP transport of the
42-mcp-server repository (`src/index.ts`, second `SimpleHttpMcpTransport`
definition, lines 1208-1725), together with the OAuth2 token cache
(`getAccessToken`, lines 556-578) and the API client (`apiRequest`,
lines 580-589).

JSON values are modelled by an inductive type; JavaScript `undefined`
(absent object property) is modelled as `Option Json = none` at every
access site.  JSON numbers are modelled as integers: none of the code
paths verified here depends on non-integer arithmetic.  Outbound I/O
(the OAuth token exchange and the authenticated GETs) is modelled by an
environment record plus an explicit trace of outbound calls, and thrown
JavaScript exceptions by `Except String`.
-/

namespace FortyTwoMcp

/-- JSON values (JS numbers restricted to integers). -/
inductive Json where
  | null
  | bool (b : Bool)
  | num (n : Int)
  | str (s : String)
  | arr (elems : List Json)
  | obj (fields : List (String × Json))
deriving Repr

mutual
/-- Decidable equality of JSON values. -/
def Json.hasDecEq : (a b : Json) → Decidable (a = b)
  | .null, .null => isTrue rfl
  | .bool a, .bool b =>
      match decEq a b with
      | isTrue h => isTrue (by rw [h])
      | isFalse h => isFalse (by simp only [Json.bool.injEq]; exact h)
  | .num a, .num b =>
      match decEq a b with
      | isTrue h => isTrue (by rw [h])
      | isFalse h => isFalse (by simp only [Json.num.injEq]; exact h)
  | .str a, .str b =>
      match decEq a b with
      | isTrue h => isTrue (by rw [h])
      | isFalse h => isFalse (by simp only [Json.str.injEq]; exact h)
  | .arr xs, .arr ys =>
      match Json.hasDecEqList xs ys with
      | isTrue h => isTrue (by rw [h])
      | isFalse h => isFalse (by simp only [Json.arr.injEq]; exact h)
  | .obj fs, .obj gs =>
      match Json.hasDecEqFields fs gs with
      | isTrue h => isTrue (by rw [h])
      | isFalse h => isFalse (by simp only [Json.obj.injEq]; exact h)
  | .null, .bool _ | .null, .num _ | .null, .str _ | .null, .arr _ | .null, .obj _
  | .bool _, .null | .bool _, .num _ | .bool _, .str _ | .bool _, .arr _ | .bool _, .obj _
  | .num _, .null | .num _, .bool _ | .num _, .str _ | .num _, .arr _ | .num _, .obj _
  | .str _, .null | .str _, .bool _ | .str _, .num _ | .str _, .arr _ | .str _, .obj _
  | .arr _, .null | .arr _, .bool _ | .arr _, .num _ | .arr _, .str _ | .arr _, .obj _
  | .obj _, .null | .obj _, .bool _ | .obj _, .num _ | .obj _, .str _ | .obj _, .arr _ =>
      isFalse (fun h => Json.noConfusion h)
termination_by structural a => a

/-- Decidable equality of JSON value lists. -/
def Json.hasDecEqList : (a b : List Json) → Decidable (a = b)
  | [], [] => isTrue rfl
  | [], _ :: _ => isFalse (fun h => List.noConfusion h)
  | _ :: _, [] => isFalse (fun h => List.noConfusion h)
  | x :: xs, y :: ys =>
      match Json.hasDecEq x y with
      | isFalse h => isFalse (by simp only [List.cons.injEq, not_and]; intro hc; contradiction)
      | isTrue hxy =>
        match Json.hasDecEqList xs ys with
        | isFalse h => isFalse (by simp only [List.cons.injEq, not_and]; intro _ hc; contradiction)
        | isTrue hrest => isTrue (by rw [hxy, hrest])
termination_by structural a => a

/-- Decidable equality of JSON object field lists. -/
def Json.hasDecEqFields : (a b : List (String × Json)) → Decidable (a = b)
  | [], [] => isTrue rfl
  | [], _ :: _ => isFalse (fun h => List.noConfusion h)
  | _ :: _, [] => isFalse (fun h => List.noConfusion h)
  | (k, v) :: xs, (l, w) :: ys =>
      match decEq k l with
      | isFalse h => isFalse (by
          simp only [List.cons.injEq, Prod.mk.injEq, not_and]
          intro hc; exact absurd hc.1 h)
      | isTrue hk =>
        match Json.hasDecEq v w with
        | isFalse h => isFalse (by
            simp only [List.cons.injEq, Prod.mk.injEq, not_and]
            intro hc; exact absurd hc.2 h)
        | isTrue hv =>
          match Json.hasDecEqFields xs ys with
          | isFalse h => isFalse (by simp only [List.cons.injEq, not_and]; intro _ hc; contradiction)
          | isTrue hrest => isTrue (by rw [hk, hv, hrest])
termination_by structural a => a
end

instance : DecidableEq Json := Json.hasDecEq

instance {ε α : Type} [DecidableEq ε] [DecidableEq α] : DecidableEq (Except ε α) := fun a b =>
  match a, b with
  | .ok x, .ok y =>
      if h : x = y then isTrue (by rw [h])
      else isFalse (by simp only [Except.ok.injEq]; exact h)
  | .error x, .error y =>
      if h : x = y then isTrue (by rw [h])
      else isFalse (by simp only [Except.error.injEq]; exact h)
  | .ok _, .error _ => isFalse (fun h => Except.noConfusion h)
  | .error _, .ok _ => isFalse (fun h => Except.noConfusion h)

/-- First-match lookup in a JS object's field list. -/
def lookupField : List (String × Json) → String → Option Json
  | [], _ => none
  | (k, v) :: rest, key => if k = key then some v else lookupField rest key

/-- JS property access `v[k]` on a non-null value; `none` is `undefined`.
Arrays and strings expose `length`; other primitives have no own
properties relevant to this code. -/
def Json.get? : Json → String → Option Json
  | .obj fs, k => lookupField fs k
  | .arr xs, k => if k = "length" then some (.num (xs.length : Int)) else none
  | .str s, k => if k = "length" then some (.num (s.length : Int)) else none
  | _, _ => none

/-- JS truthiness of a defined value. -/
def Json.truthy : Json → Bool
  | .null => false
  | .bool b => b
  | .num n => n != 0
  | .str s => s != ""
  | .arr _ => true
  | .obj _ => true

/-- JS truthiness where `none` is `undefined` (falsy). -/
def truthy? : Option Json → Bool
  | none => false
  | some v => v.truthy

/-- JS `a || b`: `a` when truthy, else `b` (with `a` possibly undefined). -/
def jsOr (a : Option Json) (b : Json) : Json :=
  match a with
  | some v => if v.truthy then v else b
  | none => b

/-- JS property access that throws a `TypeError` on `null`/`undefined`
receivers, as both destructuring and member access do. -/
def jsProp (v : Option Json) (k : String) : Except String (Option Json) :=
  match v with
  | none => .error ("TypeError: Cannot read properties of undefined (reading " ++ k ++ ")")
  | some .null => .error ("TypeError: Cannot read properties of null (reading " ++ k ++ ")")
  | some w => .ok (w.get? k)

/-- JS indexing `v[i]` for a numeric literal index on a non-null value. -/
def Json.index : Json → Nat → Option Json
  | .arr xs, i => xs.get? i
  | .str s, i => (s.data.get? i).map (fun ch => .str (String.mk [ch]))
  | .obj fs, i => lookupField fs (toString i)
  | _, _ => none

mutual
/-- JS string coercion (`String(v)` / template-literal interpolation)
of a defined value. -/
def Json.toJSString : Json → String
  | .null => "null"
  | .bool b => if b then "true" else "false"
  | .num n => toString n
  | .str s => s
  | .arr xs => joinedElems xs
  | .obj _ => "[object Object]"

/-- `Array.prototype.toString`: elements joined with commas, `null`
rendered as the empty string. -/
def joinedElems : List Json → String
  | [] => ""
  | [x] => elemString x
  | x :: y :: rest => elemString x ++ "," ++ joinedElems (y :: rest)
termination_by structural xs => xs

/-- One array element under `Array.prototype.join`: as the element's
string coercion, except that `null` renders empty. -/
def elemString : Json → String
  | .null => ""
  | .bool b => if b then "true" else "false"
  | .num n => toString n
  | .str s => s
  | .arr xs => joinedElems xs
  | .obj _ => "[object Object]"
termination_by structural v => v
end

/-- JS string coercion where `none` is `undefined`. -/
def jsToString : Option Json → String
  | none => "undefined"
  | some v => v.toJSString

/-- One hexadecimal digit, upper case. -/
def hexDigit (n : Nat) : Char :=
  if n < 10 then Char.ofNat (48 + n) else Char.ofNat (55 + n)

/-- A byte as `%HH`. -/
def percentByte (b : Nat) : String :=
  String.mk ['%', hexDigit (b / 16), hexDigit (b % 16)]

/-- Characters `encodeURIComponent` leaves unescaped. -/
def uriUnreserved (c : Char) : Bool :=
  (65 ≤ c.toNat && c.toNat ≤ 90) || (97 ≤ c.toNat && c.toNat ≤ 122) ||
  (48 ≤ c.toNat && c.toNat ≤ 57) ||
  c = '-' || c = '_' || c = '.' || c = '!' || c = '~' || c = '*' ||
  c = Char.ofNat 39 || c = '(' || c = ')'

/-- UTF-8 bytes of one character. -/
def utf8Bytes (c : Char) : List Nat :=
  (String.mk [c]).toUTF8.toList.map (fun b => b.toNat)

/-- `encodeURIComponent`. -/
def encodeURIComponent (s : String) : String :=
  s.data.foldl
    (fun acc c =>
      if uriUnreserved c then acc ++ String.mk [c]
      else acc ++ String.join ((utf8Bytes c).map percentByte))
    ""

/-- JS `ToNumber` restricted to the integer fragment used here; `none`
stands for `NaN`. -/
def jsToNumber : Json → Option Int
  | .null => some 0
  | .bool b => some (if b then 1 else 0)
  | .num n => some n
  | .str s =>
      let t := s.trim
      if t = "" then some 0 else t.toInt?
  | .arr [] => some 0
  | .arr [x] =>
      match x with
      | .num n => some n
      | .null => some 0
      | _ => none
  | .arr (_ :: _ :: _) => none
  | .obj _ => none

/-- Template rendering of `Math.min(v, bound)` (`NaN` prints as such). -/
def mathMinTemplate (v : Json) (bound : Int) : String :=
  match jsToNumber v with
  | some x => toString (min x bound)
  | none => "NaN"

/-- One hexadecimal digit, lower case (as in `JSON.stringify` escapes). -/
def hexDigitLower (n : Nat) : Char :=
  if n < 10 then Char.ofNat (48 + n) else Char.ofNat (87 + n)

/-- `JSON.stringify` escaping of one character inside a string literal. -/
def escapeJsonChar (c : Char) : String :=
  if c = Char.ofNat 34 then "\\\""
  else if c = '\\' then "\\\\"
  else if c = Char.ofNat 8 then "\\b"
  else if c = Char.ofNat 9 then "\\t"
  else if c = Char.ofNat 10 then "\\n"
  else if c = Char.ofNat 12 then "\\f"
  else if c = Char.ofNat 13 then "\\r"
  else if c.toNat < 32 then
    "\\u00" ++ String.mk [hexDigitLower (c.toNat / 16), hexDigitLower (c.toNat % 16)]
  else String.mk [c]

/-- A JSON string literal with quotes and escapes. -/
def quoteJson (s : String) : String :=
  "\"" ++ String.join (s.data.map escapeJsonChar) ++ "\""

/-- Two spaces of indentation per depth level (`JSON.stringify(v, null, 2)`). -/
def indentStr (n : Nat) : String :=
  String.mk (List.replicate (2 * n) ' ')

mutual
/-- `JSON.stringify(v, null, 2)` at a given depth. -/
def stringifyAux : Nat → Json → String
  | _, .null => "null"
  | _, .bool b => if b then "true" else "false"
  | _, .num n => toString n
  | _, .str s => quoteJson s
  | _, .arr [] => "[]"
  | d, .arr (x :: xs) =>
      "[\n" ++ String.intercalate ",\n" (stringifyItems (d + 1) (x :: xs)) ++
      "\n" ++ indentStr d ++ "]"
  | _, .obj [] => "\x7b\x7d"
  | d, .obj (f :: fs) =>
      "\x7b\n" ++ String.intercalate ",\n" (stringifyEntries (d + 1) (f :: fs)) ++
      "\n" ++ indentStr d ++ "\x7d"
termination_by structural _ v => v

/-- Array items, each on its own indented line. -/
def stringifyItems : Nat → List Json → List String
  | _, [] => []
  | d, x :: xs => (indentStr d ++ stringifyAux d x) :: stringifyItems d xs
termination_by structural _ xs => xs

/-- Object entries, each on its own indented line. -/
def stringifyEntries : Nat → List (String × Json) → List String
  | _, [] => []
  | d, (k, v) :: fs => (indentStr d ++ quoteJson k ++ ": " ++ stringifyAux d v) :: stringifyEntries d fs
termination_by structural _ fs => fs
end

/-- `JSON.stringify(v, null, 2)` as used by every tool handler. -/
def jsonStringify (v : Json) : String := stringifyAux 0 v

/-! ## Token cache state (`node-cache` restricted to the single key
`access_token`, as `tokenCache` uses it) -/

/-- One stored entry: the token string and its `node-cache` expiry time
`t` in milliseconds (`t = 0` means the entry never expires, which is how
`node-cache` interprets a zero ttl). -/
structure TokenEntry where
  value : String
  t : Int
deriving Repr, DecidableEq

/-- The process-wide `tokenCache` store. -/
structure NodeCache where
  entry : Option TokenEntry
deriving Repr, DecidableEq

/-- The empty cache at process start. -/
def tokenCache0 : NodeCache := ⟨none⟩

/-- `tokenCache.get('access_token')`: an entry is served unless its
expiry is nonzero and strictly in the past. -/
def NodeCache.get (c : NodeCache) (now : Int) : Option String :=
  match c.entry with
  | none => none
  | some e => if e.t ≠ 0 ∧ e.t < now then none else some e.value

/-- `tokenCache.set('access_token', v, ttlSec)`: stored with expiry
`now + ttlSec·1000` ms, or no expiry when the ttl is zero. -/
def NodeCache.set (_c : NodeCache) (now : Int) (v : String) (ttlSec : Int) : NodeCache :=
  ⟨some ⟨v, if ttlSec = 0 then 0 else now + ttlSec * 1000⟩⟩

/-! ## Outbound I/O environment -/

/-- A non-2xx HTTP response from the upstream. -/
structure HttpFailure where
  status : Nat
  body : String
deriving Repr, DecidableEq

/-- A successful OAuth2 client-credentials grant body. -/
structure OAuthGrant where
  access_token : String
  expires_in : Int
deriving Repr, DecidableEq

/-- The world a single dispatcher step runs against: the current clock
and the outcomes the two upstream endpoints would produce. -/
structure Env where
  now : Int
  oauth : Except HttpFailure OAuthGrant
  api : String → Except HttpFailure Json

/-- One outbound HTTP call, for the I/O trace. -/
inductive OutCall where
  | oauthToken
  | apiGet (path : String)
deriving Repr, DecidableEq

/-- `getAccessToken()`: serve the cached token when present and truthy,
otherwise perform one OAuth exchange, throwing on a non-2xx status and
storing the fresh token with ttl `expires_in - 60` seconds. -/
def getAccessToken (env : Env) (c : NodeCache) :
    Except String String × NodeCache × List OutCall :=
  let fetch : Except String String × NodeCache × List OutCall :=
    match env.oauth with
    | .error f =>
        (.error ("42 API oauth failure: " ++ toString f.status ++ " " ++ f.body), c, [.oauthToken])
    | .ok g =>
        (.ok g.access_token, c.set env.now g.access_token (g.expires_in - 60), [.oauthToken])
  match c.get env.now with
  | some cached => if cached ≠ "" then (.ok cached, c, []) else fetch
  | none => fetch

/-- `apiRequest(path)`: obtain a token, then issue one authenticated GET,
throwing on a non-2xx status and returning the parsed JSON body. -/
def apiRequest (env : Env) (c : NodeCache) (path : String) :
    Except String Json × NodeCache × List OutCall :=
  match getAccessToken env c with
  | (.error e, c1, calls) => (.error e, c1, calls)
  | (.ok _token, c1, calls) =>
    match env.api path with
    | .error f =>
        (.error ("42 API error: " ++ toString f.status ++ " " ++ f.body), c1, calls ++ [.apiGet path])
    | .ok v => (.ok v, c1, calls ++ [.apiGet path])

/-! ## JSON-RPC response envelopes -/

/-- The `error` member of a JSON-RPC response. -/
structure JsonRpcError where
  code : Int
  message : String
deriving Repr, DecidableEq

/-- A response envelope as `handleRequest` builds it.  `result`/`error`
are optional members; `id : Option Json` distinguishes a member that is
present (possibly `null`) from one left `undefined`, which
`JSON.stringify` omits from the wire form. -/
structure JsonRpcResponse where
  jsonrpc : String
  result : Option Json := none
  error : Option JsonRpcError := none
  id : Option Json
deriving Repr, DecidableEq

/-- The fixed `initialize` result payload. -/
def initializeResult : Json :=
  .obj [
    ("protocolVersion", .str "2024-11-05"),
    ("capabilities", .obj [
      ("tools", .obj [("listChanged", .bool true)]),
      ("resources", .obj [("subscribe", .bool true), ("listChanged", .bool true)])]),
    ("serverInfo", .obj [
      ("name", .str "42-api-server"),
      ("version", .str "0.1.5")])]

/-- One advertised tool entry with a `required` list. -/
def toolEntry (nm descr : String) (props : List (String × Json)) (req : List String) : Json :=
  .obj [
    ("name", .str nm),
    ("description", .str descr),
    ("inputSchema", .obj [
      ("type", .str "object"),
      ("properties", .obj props),
      ("required", .arr (req.map Json.str))])]

/-- One advertised tool entry without a `required` list. -/
def toolEntryNoReq (nm descr : String) (props : List (String × Json)) : Json :=
  .obj [
    ("name", .str nm),
    ("description", .str descr),
    ("inputSchema", .obj [
      ("type", .str "object"),
      ("properties", .obj props)])]

/-- A number-typed property descriptor. -/
def numProp (descr : String) : Json :=
  .obj [("type", .str "number"), ("description", .str descr)]

/-- A number-typed property descriptor with a default. -/
def numPropDefault (descr : String) (d : Int) : Json :=
  .obj [("type", .str "number"), ("description", .str descr), ("default", .num d)]

/-- A string-typed property descriptor. -/
def strProp (descr : String) : Json :=
  .obj [("type", .str "string"), ("description", .str descr)]

/-- The full `tools/list` result payload (lines 1242-1409 of the source). -/
def toolsListResult : Json :=
  .obj [("tools", .arr [
    toolEntry "searchUsers"
      "Find 42 users by a case-insensitive login substring (max 5 results)"
      [("query", .obj [
        ("type", .str "string"),
        ("description", .str "Search query for user login"),
        ("minLength", .num 2),
        ("maxLength", .num 30)])]
      ["query"],
    toolEntry "getCursusLevel"
      "Returns the level of a user in a specific cursus"
      [("userId", numProp "42 user ID"),
       ("cursusId", numPropDefault "Cursus ID (default: 21 for 42cursus)" 21)]
      ["userId"],
    toolEntry "getUserProjects"
      "Retrieve all projects for a specific user"
      [("userId", numProp "42 user ID"),
       ("cursusId", numProp "Filter by cursus ID (optional)")]
      ["userId"],
    toolEntry "getCoalition"
      "Get coalition information for a user"
      [("userId", numProp "42 user ID")]
      ["userId"],
    toolEntryNoReq "getCampusUsers"
      "Retrieve campus-user associations by campusId or userId"
      [("campusId", numProp "Campus ID"),
       ("userId", numProp "User ID")],
    toolEntryNoReq "getBalances"
      "Retrieve balances globally or for a specific pool (requires Advanced tutor role)"
      [("poolId", numProp "Pool ID")],
    toolEntryNoReq "getClusters"
      "Retrieve clusters with optional campusId and/or name filter (requires Basic staff role)"
      [("campusId", numProp "Campus ID"),
       ("name", strProp "Substring of cluster name"),
       ("pageSize", numPropDefault "Page size (default 30)" 30)],
    toolEntryNoReq "getLocations"
      "Retrieve user locations (seats) with optional campus, host, and activity filters"
      [("campusId", numProp "Campus ID"),
       ("active", .obj [
         ("type", .str "boolean"),
         ("description", .str "Filter for active (currently sitting) users only"),
         ("default", .bool true)]),
       ("host", strProp "Specific host/computer name"),
       ("pageSize", numPropDefault "Page size (default 100)" 100)],
    toolEntryNoReq "getAttachments"
      "Retrieve attachments (PDFs, videos, links) with optional project filters"
      [("projectId", numProp "Project ID to filter attachments"),
       ("projectSessionId", numProp "Project session ID to filter attachments"),
       ("pageSize", numPropDefault "Page size (default 30, max 100)" 30),
       ("sort", strProp "Sort field (id, created_at, updated_at, etc.)")],
    toolEntry "getAttachment"
      "Get detailed information about a specific attachment including PDF URLs"
      [("attachmentId", numProp "Attachment ID"),
       ("projectSessionId", numProp "Project session ID (if accessing via project session)")]
      ["attachmentId"],
    toolEntryNoReq "getProjects"
      "Retrieve projects with optional cursus or project filters"
      [("cursusId", numProp "Cursus ID to filter projects"),
       ("projectId", numProp "Parent project ID to filter child projects"),
       ("pageSize", numPropDefault "Page size (default 30, max 100)" 30),
       ("sort", strProp "Sort field (id, name, created_at, position, etc.)"),
       ("filter", strProp "Filter field and value (e.g., \"exam\" for exam projects)")],
    toolEntry "getProject"
      "Get detailed information about a specific project"
      [("projectId", numProp "Project ID")]
      ["projectId"],
    toolEntryNoReq "getMyProjects"
      "Get all projects for the current authenticated user"
      [("cursusId", numProp "Cursus ID to filter projects"),
       ("pageSize", numPropDefault "Page size (default 30, max 100)" 30),
       ("sort", strProp "Sort field (id, name, created_at, position, etc.)")]])]

/-- The fixed `resources/list` result payload (lines 1669-1707). -/
def resourcesListResult : Json :=
  .obj [("resources", .arr [
    .obj [("uri", .str "42://me"),
          ("name", .str "My 42 Profile"),
          ("description", .str "Your own user object from 42 API"),
          ("mimeType", .str "application/json")],
    .obj [("uri", .str "42://campus"),
          ("name", .str "42 Campus List"),
          ("description", .str "List of all 42 campuses worldwide"),
          ("mimeType", .str "application/json")],
    .obj [("uri", .str "42://attachments"),
          ("name", .str "All Attachments"),
          ("description", .str "List of all attachments (PDFs, videos, links) in the system"),
          ("mimeType", .str "application/json")],
    .obj [("uri", .str "42://projects"),
          ("name", .str "All Projects"),
          ("description", .str "List of all projects in the system"),
          ("mimeType", .str "application/json")],
    .obj [("uri", .str "42://me/projects"),
          ("name", .str "My Projects"),
          ("description", .str "List of projects for the current authenticated user"),
          ("mimeType", .str "application/json")]])]

/-! ## The `tools/call` handlers -/

/-- The outcome of one dispatcher step: a thrown exception or a
response, the token cache afterwards, and the outbound-call trace. -/
abbrev ToolStep := Except String JsonRpcResponse × NodeCache × List OutCall

/-- The uniform tool success envelope
`{jsonrpc, result: {content: [{type: "text", text}]}, id}`. -/
def toolSuccess (text : String) (id : Option Json) : JsonRpcResponse :=
  { jsonrpc := "2.0",
    result := some (.obj [("content",
      .arr [.obj [("type", .str "text"), ("text", .str text)]])]),
    id := id }

/-- The `-32601` envelope used by both `default` branches. -/
def methodNotFound (id : Option Json) : JsonRpcResponse :=
  { jsonrpc := "2.0", error := some ⟨-32601, "Method not found"⟩, id := id }

/-- First access to `args`: throws the `TypeError` exactly when `args`
is `null`/`undefined`, as every handler's first `args.x` read does;
later reads of the same receiver are pure. -/
def argsObject : Option Json → Except String Json
  | none => .error "TypeError: Cannot read properties of undefined"
  | some .null => .error "TypeError: Cannot read properties of null"
  | some v => .ok v

/-- The repeated tail of every plain handler: issue the GET and wrap the
pretty-printed JSON as the single text content item. -/
def fetchAndWrap (env : Env) (c : NodeCache) (url : String) (id : Option Json) : ToolStep :=
  match apiRequest env c url with
  | (.error e, c1, calls) => (.error e, c1, calls)
  | (.ok v, c1, calls) => (.ok (toolSuccess (jsonStringify v) id), c1, calls)

/-- `case 'searchUsers'` (lines 1415-1425). -/
def callSearchUsers (env : Env) (c : NodeCache) (args : Option Json) (id : Option Json) : ToolStep :=
  match argsObject args with
  | .error e => (.error e, c, [])
  | .ok a =>
    fetchAndWrap env c
      ("/v2/users?filter[login]=" ++ encodeURIComponent (jsToString (a.get? "query")) ++
        "&page[size]=5") id

/-- `case 'getCursusLevel'` (lines 1427-1440). -/
def callGetCursusLevel (env : Env) (c : NodeCache) (args : Option Json) (id : Option Json) : ToolStep :=
  match argsObject args with
  | .error e => (.error e, c, [])
  | .ok a =>
    let cursus := (jsOr (a.get? "cursusId") (.num 21)).toJSString
    match apiRequest env c
      ("/v2/users/" ++ jsToString (a.get? "userId") ++
        "/cursus_users?filter[cursus_id]=" ++ cursus) with
    | (.error e, c1, calls) => (.error e, c1, calls)
    | (.ok cursusUsers, c1, calls) =>
      match jsProp (some cursusUsers) "length" with
      | .error e => (.error e, c1, calls)
      | .ok len =>
        if truthy? len then
          match jsProp (cursusUsers.index 0) "level" with
          | .error e => (.error e, c1, calls)
          | .ok level =>
            (.ok (toolSuccess
              ("Level " ++ jsToString level ++ " in cursus " ++ cursus) id), c1, calls)
        else
          (.ok (toolSuccess "User not enrolled in this cursus." id), c1, calls)

/-- `case 'getUserProjects'` (lines 1442-1454). -/
def callGetUserProjects (env : Env) (c : NodeCache) (args : Option Json) (id : Option Json) : ToolStep :=
  match argsObject args with
  | .error e => (.error e, c, [])
  | .ok a =>
    let base := "/v2/users/" ++ jsToString (a.get? "userId") ++ "/projects_users"
    let url := if truthy? (a.get? "cursusId") then
        base ++ "?filter[cursus_id]=" ++ jsToString (a.get? "cursusId")
      else base
    fetchAndWrap env c url id

/-- `case 'getCoalition'` (lines 1456-1464). -/
def callGetCoalition (env : Env) (c : NodeCache) (args : Option Json) (id : Option Json) : ToolStep :=
  match argsObject args with
  | .error e => (.error e, c, [])
  | .ok a =>
    fetchAndWrap env c ("/v2/users/" ++ jsToString (a.get? "userId") ++ "/coalitions") id

/-- `case 'getCampusUsers'` (lines 1466-1480). -/
def callGetCampusUsers (env : Env) (c : NodeCache) (args : Option Json) (id : Option Json) : ToolStep :=
  match argsObject args with
  | .error e => (.error e, c, [])
  | .ok a =>
    let url := if truthy? (a.get? "userId") then
        "/v2/users/" ++ jsToString (a.get? "userId") ++ "/campus_users"
      else if truthy? (a.get? "campusId") then
        "/v2/campus_users" ++ "?filter[campus_id]=" ++ jsToString (a.get? "campusId")
      else "/v2/campus_users"
    fetchAndWrap env c url id

/-- `case 'getBalances'` (lines 1482-1494). -/
def callGetBalances (env : Env) (c : NodeCache) (args : Option Json) (id : Option Json) : ToolStep :=
  match argsObject args with
  | .error e => (.error e, c, [])
  | .ok a =>
    let url := if truthy? (a.get? "poolId") then
        "/v2/pools/" ++ jsToString (a.get? "poolId") ++ "/balances"
      else "/v2/balances"
    fetchAndWrap env c url id

/-- `case 'getClusters'` (lines 1496-1518). -/
def callGetClusters (env : Env) (c : NodeCache) (args : Option Json) (id : Option Json) : ToolStep :=
  match argsObject args with
  | .error e => (.error e, c, [])
  | .ok a =>
    let base := "/v2/clusters?page[size]=" ++ (jsOr (a.get? "pageSize") (.num 30)).toJSString
    let filters :=
      (if truthy? (a.get? "campusId") then
        ["filter[campus_id]=" ++ jsToString (a.get? "campusId")] else []) ++
      (if truthy? (a.get? "name") then
        ["filter[name]=" ++ encodeURIComponent (jsToString (a.get? "name"))] else [])
    let url := if filters.length > 0 then base ++ "&" ++ String.intercalate "&" filters else base
    fetchAndWrap env c url id

/-- `case 'getLocations'` (lines 1520-1546). -/
def callGetLocations (env : Env) (c : NodeCache) (args : Option Json) (id : Option Json) : ToolStep :=
  match argsObject args with
  | .error e => (.error e, c, [])
  | .ok a =>
    let ps := (jsOr (a.get? "pageSize") (.num 100)).toJSString
    let base := if truthy? (a.get? "campusId") then
        "/v2/campus/" ++ jsToString (a.get? "campusId") ++ "/locations?page[size]=" ++ ps
      else "/v2/locations?page[size]=" ++ ps
    let filters :=
      (if a.get? "active" ≠ some (.bool false) then ["filter[active]=true"] else []) ++
      (if truthy? (a.get? "host") then
        ["filter[host]=" ++ encodeURIComponent (jsToString (a.get? "host"))] else [])
    let url := if filters.length > 0 then base ++ "&" ++ String.intercalate "&" filters else base
    fetchAndWrap env c url id

/-- `case 'getAttachments'` (lines 1548-1575). -/
def callGetAttachments (env : Env) (c : NodeCache) (args : Option Json) (id : Option Json) : ToolStep :=
  match argsObject args with
  | .error e => (.error e, c, [])
  | .ok a =>
    let base := if truthy? (a.get? "projectSessionId") then
        "/v2/project_sessions/" ++ jsToString (a.get? "projectSessionId") ++ "/attachments"
      else if truthy? (a.get? "projectId") then
        "/v2/projects/" ++ jsToString (a.get? "projectId") ++ "/attachments"
      else "/v2/attachments"
    let qs :=
      ["page[size]=" ++ mathMinTemplate (jsOr (a.get? "pageSize") (.num 30)) 100] ++
      (if truthy? (a.get? "sort") then
        ["sort=" ++ encodeURIComponent (jsToString (a.get? "sort"))] else [])
    let url := if qs.length > 0 then base ++ "?" ++ String.intercalate "&" qs else base
    fetchAndWrap env c url id

/-- `case 'getAttachment'` (lines 1577-1593). -/
def callGetAttachment (env : Env) (c : NodeCache) (args : Option Json) (id : Option Json) : ToolStep :=
  match argsObject args with
  | .error e => (.error e, c, [])
  | .ok a =>
    let url := if truthy? (a.get? "projectSessionId") then
        "/v2/project_sessions/" ++ jsToString (a.get? "projectSessionId") ++
          "/attachments/" ++ jsToString (a.get? "attachmentId")
      else "/v2/attachments/" ++ jsToString (a.get? "attachmentId")
    fetchAndWrap env c url id

/-- `case 'getProjects'` (lines 1595-1625). -/
def callGetProjects (env : Env) (c : NodeCache) (args : Option Json) (id : Option Json) : ToolStep :=
  match argsObject args with
  | .error e => (.error e, c, [])
  | .ok a =>
    let base := if truthy? (a.get? "cursusId") then
        "/v2/cursus/" ++ jsToString (a.get? "cursusId") ++ "/projects"
      else if truthy? (a.get? "projectId") then
        "/v2/projects/" ++ jsToString (a.get? "projectId") ++ "/projects"
      else "/v2/projects"
    let qs :=
      ["page[size]=" ++ mathMinTemplate (jsOr (a.get? "pageSize") (.num 30)) 100] ++
      (if truthy? (a.get? "sort") then
        ["sort=" ++ encodeURIComponent (jsToString (a.get? "sort"))] else []) ++
      (if truthy? (a.get? "filter") then
        ["filter[" ++ encodeURIComponent (jsToString (a.get? "filter")) ++ "]=true"] else [])
    let url := if qs.length > 0 then base ++ "?" ++ String.intercalate "&" qs else base
    fetchAndWrap env c url id

/-- `case 'getProject'` (lines 1627-1635). -/
def callGetProject (env : Env) (c : NodeCache) (args : Option Json) (id : Option Json) : ToolStep :=
  match argsObject args with
  | .error e => (.error e, c, [])
  | .ok a =>
    fetchAndWrap env c ("/v2/projects/" ++ jsToString (a.get? "projectId")) id

/-- `case 'getMyProjects'` (lines 1637-1659). -/
def callGetMyProjects (env : Env) (c : NodeCache) (args : Option Json) (id : Option Json) : ToolStep :=
  match argsObject args with
  | .error e => (.error e, c, [])
  | .ok a =>
    let qs :=
      ["page[size]=" ++ mathMinTemplate (jsOr (a.get? "pageSize") (.num 30)) 100] ++
      (if truthy? (a.get? "cursusId") then
        ["cursus_id=" ++ jsToString (a.get? "cursusId")] else []) ++
      (if truthy? (a.get? "sort") then
        ["sort=" ++ encodeURIComponent (jsToString (a.get? "sort"))] else [])
    let url := if qs.length > 0 then "/v2/me/projects" ++ "?" ++ String.intercalate "&" qs
      else "/v2/me/projects"
    fetchAndWrap env c url id

/-- The inner `switch (name)` of the `tools/call` case: dispatch to the
matching handler, `default` answering `-32601`. -/
def callTool (env : Env) (c : NodeCache) (toolName : Option Json)
    (args : Option Json) (id : Option Json) : ToolStep :=
  if toolName = some (.str "searchUsers") then callSearchUsers env c args id
  else if toolName = some (.str "getCursusLevel") then callGetCursusLevel env c args id
  else if toolName = some (.str "getUserProjects") then callGetUserProjects env c args id
  else if toolName = some (.str "getCoalition") then callGetCoalition env c args id
  else if toolName = some (.str "getCampusUsers") then callGetCampusUsers env c args id
  else if toolName = some (.str "getBalances") then callGetBalances env c args id
  else if toolName = some (.str "getClusters") then callGetClusters env c args id
  else if toolName = some (.str "getLocations") then callGetLocations env c args id
  else if toolName = some (.str "getAttachments") then callGetAttachments env c args id
  else if toolName = some (.str "getAttachment") then callGetAttachment env c args id
  else if toolName = some (.str "getProjects") then callGetProjects env c args id
  else if toolName = some (.str "getProject") then callGetProject env c args id
  else if toolName = some (.str "getMyProjects") then callGetMyProjects env c args id
  else (.ok (methodNotFound id), c, [])

/-- The body of the `try` block: the outer `switch (method)`.  The
`tools/call` case first destructures `params`, which throws on a
`null`/`undefined` value. -/
def tryDispatch (env : Env) (c : NodeCache) (rpcMethod : Option Json)
    (params : Option Json) (id : Option Json) : ToolStep :=
  if rpcMethod = some (.str "initialize") then
    (.ok { jsonrpc := "2.0", result := some initializeResult, id := id }, c, [])
  else if rpcMethod = some (.str "tools/list") then
    (.ok { jsonrpc := "2.0", result := some toolsListResult, id := id }, c, [])
  else if rpcMethod = some (.str "tools/call") then
    match params with
    | none => (.error "TypeError: Cannot destructure property of undefined", c, [])
    | some .null => (.error "TypeError: Cannot destructure property of null", c, [])
    | some p => callTool env c (p.get? "name") (p.get? "arguments") id
  else if rpcMethod = some (.str "resources/list") then
    (.ok { jsonrpc := "2.0", result := some resourcesListResult, id := id }, c, [])
  else (.ok (methodNotFound id), c, [])

/-- `SimpleHttpMcpTransport.handleRequest` (lines 1211-1724).  The
opening destructure throws on a `null` body; the `jsonrpc` check
precedes the `try` block; every exception inside the `try` becomes the
fixed `-32603` envelope. -/
def handleRequest (env : Env) (c : NodeCache) (requestBody : Json) :
    Except String JsonRpcResponse × NodeCache × List OutCall :=
  if requestBody = Json.null then
    (.error "TypeError: Cannot destructure property of null", c, [])
  else
    let id := requestBody.get? "id"
    if requestBody.get? "jsonrpc" ≠ some (.str "2.0") then
      (.ok { jsonrpc := "2.0", error := some ⟨-32600, "Invalid Request"⟩,
             id := some (jsOr id .null) }, c, [])
    else
      match tryDispatch env c (requestBody.get? "method") (requestBody.get? "params") id with
      | (.ok resp, c1, calls) => (.ok resp, c1, calls)
      | (.error _e, c1, calls) =>
        (.ok { jsonrpc := "2.0", error := some ⟨-32603, "Internal error"⟩, id := id }, c1, calls)

/-! ## Derived notions used by the statements -/

/-- The thirteen tool names the inner `switch (name)` handles, in source
order. -/
def handledToolNames : List String :=
  ["searchUsers", "getCursusLevel", "getUserProjects", "getCoalition",
   "getCampusUsers", "getBalances", "getClusters", "getLocations",
   "getAttachments", "getAttachment", "getProjects", "getProject",
   "getMyProjects"]

/-- The tool names the `tools/list` payload advertises, extracted from
the payload itself. -/
def advertisedToolNames : List String :=
  match toolsListResult.get? "tools" with
  | some (.arr ts) =>
      ts.filterMap (fun t =>
        match t.get? "name" with
        | some (.str s) => some s
        | _ => none)
  | _ => []

/-- The four method strings the outer `switch (method)` recognizes. -/
def knownMethodValues : List (Option Json) :=
  [some (.str "initialize"), some (.str "tools/list"),
   some (.str "tools/call"), some (.str "resources/list")]

/-- The `name` values of `tools/call` requests that reach a handler. -/
def handledToolValues : List (Option Json) :=
  handledToolNames.map (fun s => some (.str s))

/-- The JsonRpcResponse invariant: exactly one of `result` and `error`
is present. -/
def JsonRpcResponse.exactlyOne (r : JsonRpcResponse) : Prop :=
  (r.result.isSome = true ∧ r.error = none) ∨ (r.result = none ∧ r.error.isSome = true)

/-- A tool handler's step either throws or answers the uniform success
envelope carrying the request id. -/
def stepShape (s : ToolStep) (id : Option Json) : Prop :=
  (∃ e, s.1 = Except.error e) ∨ ∃ text, s.1 = Except.ok (toolSuccess text id)

/-! ## Shape lemmas for the handlers -/

theorem fetchAndWrap_shape (env : Env) (c : NodeCache) (url : String) (id : Option Json) :
    stepShape (fetchAndWrap env c url id) id := by
  unfold stepShape fetchAndWrap
  split
  · exact Or.inl ⟨_, rfl⟩
  · exact Or.inr ⟨_, rfl⟩

/-- The common shape of the twelve plain handlers: first `args` access,
then one fetch-and-wrap. -/
theorem argsFetch_shape (env : Env) (c : NodeCache) (args : Option Json) (id : Option Json)
    (url : Json → String) :
    stepShape (match argsObject args with
               | .error e => (.error e, c, [])
               | .ok a => fetchAndWrap env c (url a) id) id := by
  unfold stepShape
  split
  · exact Or.inl ⟨_, rfl⟩
  · exact fetchAndWrap_shape env c _ id

theorem callSearchUsers_shape (env : Env) (c : NodeCache) (args : Option Json) (id : Option Json) :
    stepShape (callSearchUsers env c args id) id :=
  argsFetch_shape env c args id _

theorem callGetUserProjects_shape (env : Env) (c : NodeCache) (args : Option Json) (id : Option Json) :
    stepShape (callGetUserProjects env c args id) id :=
  argsFetch_shape env c args id _

theorem callGetCoalition_shape (env : Env) (c : NodeCache) (args : Option Json) (id : Option Json) :
    stepShape (callGetCoalition env c args id) id :=
  argsFetch_shape env c args id _

theorem callGetCampusUsers_shape (env : Env) (c : NodeCache) (args : Option Json) (id : Option Json) :
    stepShape (callGetCampusUsers env c args id) id :=
  argsFetch_shape env c args id _

theorem callGetBalances_shape (env : Env) (c : NodeCache) (args : Option Json) (id : Option Json) :
    stepShape (callGetBalances env c args id) id :=
  argsFetch_shape env c args id _

theorem callGetClusters_shape (env : Env) (c : NodeCache) (args : Option Json) (id : Option Json) :
    stepShape (callGetClusters env c args id) id :=
  argsFetch_shape env c args id _

theorem callGetLocations_shape (env : Env) (c : NodeCache) (args : Option Json) (id : Option Json) :
    stepShape (callGetLocations env c args id) id :=
  argsFetch_shape env c args id _

theorem callGetAttachments_shape (env : Env) (c : NodeCache) (args : Option Json) (id : Option Json) :
    stepShape (callGetAttachments env c args id) id :=
  argsFetch_shape env c args id _

theorem callGetAttachment_shape (env : Env) (c : NodeCache) (args : Option Json) (id : Option Json) :
    stepShape (callGetAttachment env c args id) id :=
  argsFetch_shape env c args id _

theorem callGetProjects_shape (env : Env) (c : NodeCache) (args : Option Json) (id : Option Json) :
    stepShape (callGetProjects env c args id) id :=
  argsFetch_shape env c args id _

theorem callGetProject_shape (env : Env) (c : NodeCache) (args : Option Json) (id : Option Json) :
    stepShape (callGetProject env c args id) id :=
  argsFetch_shape env c args id _

theorem callGetMyProjects_shape (env : Env) (c : NodeCache) (args : Option Json) (id : Option Json) :
    stepShape (callGetMyProjects env c args id) id :=
  argsFetch_shape env c args id _

theorem callGetCursusLevel_shape (env : Env) (c : NodeCache) (args : Option Json) (id : Option Json) :
    stepShape (callGetCursusLevel env c args id) id := by
  unfold stepShape callGetCursusLevel
  split
  · exact Or.inl ⟨_, rfl⟩
  · dsimp only
    split
    · exact Or.inl ⟨_, rfl⟩
    · split
      · exact Or.inl ⟨_, rfl⟩
      · split
        · split
          · exact Or.inl ⟨_, rfl⟩
          · exact Or.inr ⟨_, rfl⟩
        · exact Or.inr ⟨_, rfl⟩

/-! ## Dispatch lemmas -/

/-- A `tools/call` whose `name` matches no case falls through to the
inner `default` branch: the `-32601` envelope, no state change, no I/O. -/
theorem callTool_unknown (env : Env) (c : NodeCache) (nm args id : Option Json)
    (h : nm ∉ handledToolValues) :
    callTool env c nm args id = (.ok (methodNotFound id), c, []) := by
  unfold callTool
  rw [if_neg (fun heq => h (by rw [heq]; decide)),
      if_neg (fun heq => h (by rw [heq]; decide)),
      if_neg (fun heq => h (by rw [heq]; decide)),
      if_neg (fun heq => h (by rw [heq]; decide)),
      if_neg (fun heq => h (by rw [heq]; decide)),
      if_neg (fun heq => h (by rw [heq]; decide)),
      if_neg (fun heq => h (by rw [heq]; decide)),
      if_neg (fun heq => h (by rw [heq]; decide)),
      if_neg (fun heq => h (by rw [heq]; decide)),
      if_neg (fun heq => h (by rw [heq]; decide)),
      if_neg (fun heq => h (by rw [heq]; decide)),
      if_neg (fun heq => h (by rw [heq]; decide)),
      if_neg (fun heq => h (by rw [heq]; decide))]

/-- A `tools/call` naming any handled tool reaches that tool's handler,
whose outcome is thrown-or-success. -/
theorem callTool_known (env : Env) (c : NodeCache) (args id : Option Json) :
    ∀ nm ∈ handledToolValues, stepShape (callTool env c nm args id) id := by
  intro nm hnm
  fin_cases hnm
  · exact callSearchUsers_shape env c args id
  · exact callGetCursusLevel_shape env c args id
  · exact callGetUserProjects_shape env c args id
  · exact callGetCoalition_shape env c args id
  · exact callGetCampusUsers_shape env c args id
  · exact callGetBalances_shape env c args id
  · exact callGetClusters_shape env c args id
  · exact callGetLocations_shape env c args id
  · exact callGetAttachments_shape env c args id
  · exact callGetAttachment_shape env c args id
  · exact callGetProjects_shape env c args id
  · exact callGetProject_shape env c args id
  · exact callGetMyProjects_shape env c args id

/-- Whatever the tool name, `callTool` throws or answers a well-formed
envelope carrying the request id. -/
theorem callTool_triple_shape (env : Env) (c : NodeCache) (nm args id : Option Json) :
    (∃ e st calls, callTool env c nm args id = (.error e, st, calls)) ∨
    (∃ r st calls, callTool env c nm args id = (.ok r, st, calls) ∧
      r.jsonrpc = "2.0" ∧ r.exactlyOne ∧ r.id = id) := by
  by_cases h : nm ∈ handledToolValues
  · rcases callTool_known env c args id nm h with ⟨e, h1⟩ | ⟨t, h1⟩
    · exact Or.inl ⟨e, _, _, by rw [← h1]⟩
    · exact Or.inr ⟨toolSuccess t id, _, _, by rw [← h1], rfl, Or.inl ⟨rfl, rfl⟩, rfl⟩
  · rw [callTool_unknown env c nm args id h]
    exact Or.inr ⟨_, c, [], rfl, rfl, Or.inr ⟨rfl, rfl⟩, rfl⟩

/-- An unrecognized method falls through to the outer `default` branch. -/
theorem tryDispatch_unknown (env : Env) (c : NodeCache) (m p id : Option Json)
    (h : m ∉ knownMethodValues) :
    tryDispatch env c m p id = (.ok (methodNotFound id), c, []) := by
  unfold tryDispatch
  rw [if_neg (fun heq => h (by rw [heq]; decide)),
      if_neg (fun heq => h (by rw [heq]; decide)),
      if_neg (fun heq => h (by rw [heq]; decide)),
      if_neg (fun heq => h (by rw [heq]; decide))]

/-- Whatever the envelope's method and params, the `try` body throws or
answers a well-formed envelope carrying the request id. -/
theorem tryDispatch_shape (env : Env) (c : NodeCache) (m p id : Option Json) :
    (∃ e st calls, tryDispatch env c m p id = (.error e, st, calls)) ∨
    (∃ r st calls, tryDispatch env c m p id = (.ok r, st, calls) ∧
      r.jsonrpc = "2.0" ∧ r.exactlyOne ∧ r.id = id) := by
  by_cases h1 : m = some (.str "initialize")
  · unfold tryDispatch; rw [if_pos h1]
    exact Or.inr ⟨_, c, [], rfl, rfl, Or.inl ⟨rfl, rfl⟩, rfl⟩
  by_cases h2 : m = some (.str "tools/list")
  · unfold tryDispatch; rw [if_neg h1, if_pos h2]
    exact Or.inr ⟨_, c, [], rfl, rfl, Or.inl ⟨rfl, rfl⟩, rfl⟩
  by_cases h3 : m = some (.str "tools/call")
  · unfold tryDispatch; rw [if_neg h1, if_neg h2, if_pos h3]
    cases p with
    | none => exact Or.inl ⟨_, c, [], rfl⟩
    | some v =>
      cases v with
      | null => exact Or.inl ⟨_, c, [], rfl⟩
      | bool b => exact callTool_triple_shape env c _ _ id
      | num n => exact callTool_triple_shape env c _ _ id
      | str s => exact callTool_triple_shape env c _ _ id
      | arr xs => exact callTool_triple_shape env c _ _ id
      | obj fs => exact callTool_triple_shape env c _ _ id
  by_cases h4 : m = some (.str "resources/list")
  · unfold tryDispatch; rw [if_neg h1, if_neg h2, if_neg h3, if_pos h4]
    exact Or.inr ⟨_, c, [], rfl, rfl, Or.inl ⟨rfl, rfl⟩, rfl⟩
  · unfold tryDispatch; rw [if_neg h1, if_neg h2, if_neg h3, if_neg h4]
    exact Or.inr ⟨_, c, [], rfl, rfl, Or.inr ⟨rfl, rfl⟩, rfl⟩

/-- `a || b` echoes a truthy `a`. -/
theorem jsOr_truthy (a : Option Json) (b : Json) (h : truthy? a = true) :
    some (jsOr a b) = a := by
  cases a with
  | none => exact absurd h (by simp [truthy?])
  | some v => simp only [jsOr]; rw [if_pos (show v.truthy = true from h)]

/-- `a || b` falls back to `b` on a falsy or undefined `a`. -/
theorem jsOr_falsy (a : Option Json) (b : Json) (h : truthy? a = false) :
    jsOr a b = b := by
  cases a with
  | none => rfl
  | some v =>
    simp only [jsOr]
    rw [if_neg (show ¬ v.truthy = true by
      simp only [show v.truthy = false from h, Bool.false_eq_true, not_false_eq_true])]

/-- The master case analysis: on any non-`null` body, `handleRequest`
returns (never throws) a well-formed envelope; the envelope's id is the
request's id except that the pre-dispatch `-32600` branch coalesces a
falsy or absent id to `null`. -/
theorem handleRequest_shape (env : Env) (c : NodeCache) (body : Json) (hb : body ≠ Json.null) :
    ∃ r st calls, handleRequest env c body = (.ok r, st, calls) ∧
      r.jsonrpc = "2.0" ∧ r.exactlyOne ∧
      (r.id = body.get? "id" ∨
        (truthy? (body.get? "id") = false ∧ r.id = some Json.null)) := by
  unfold handleRequest
  rw [if_neg hb]
  dsimp only
  by_cases hj : body.get? "jsonrpc" = some (.str "2.0")
  · rw [if_neg (not_not_intro hj)]
    rcases tryDispatch_shape env c (body.get? "method") (body.get? "params") (body.get? "id")
      with ⟨e, st, calls, h⟩ | ⟨r, st, calls, h, hjr, hx, hid⟩
    · rw [h]
      exact ⟨_, st, calls, rfl, rfl, Or.inr ⟨rfl, rfl⟩, Or.inl rfl⟩
    · rw [h]
      exact ⟨r, st, calls, rfl, hjr, hx, Or.inl hid⟩
  · rw [if_pos hj]
    by_cases ht : truthy? (body.get? "id") = true
    · exact ⟨_, c, [], rfl, rfl, Or.inr ⟨rfl, rfl⟩, Or.inl (by rw [jsOr_truthy _ _ ht])⟩
    · refine ⟨_, c, [], rfl, rfl, Or.inr ⟨rfl, rfl⟩,
        Or.inr ⟨Bool.not_eq_true _ ▸ ht, ?_⟩⟩
      rw [jsOr_falsy _ _ (Bool.not_eq_true _ ▸ ht)]

/-! ## Concrete fixtures for witnesses and counterexamples -/

/-- An environment whose endpoints all fail; the pre-dispatch branches
never consult it. -/
def envStub : Env := ⟨0, .error ⟨500, "stub"⟩, fun _ => .error ⟨500, "stub"⟩⟩

/-- Scenario D environment: the OAuth endpoint answers HTTP 401. -/
def envAuthFail : Env := ⟨0, .error ⟨401, "unauthorized"⟩, fun _ => .ok (.arr [])⟩

/-- The upstream array scenario B returns for the login filter. -/
def scenarioBUsers : Json := .arr [.obj [("id", .num 1), ("login", .str "jdoe")]]

/-- Scenario B environment: healthy OAuth endpoint, one matching user. -/
def envScenarioB : Env :=
  ⟨0, .ok ⟨"tok", 7200⟩,
   fun p => if p = "/v2/users?filter[login]=jd&page[size]=5" then .ok scenarioBUsers
            else .error ⟨404, "not found"⟩⟩

/-- The scenario B request envelope. -/
def scenarioBBody : Json :=
  .obj [("jsonrpc", .str "2.0"), ("method", .str "tools/call"),
        ("params", .obj [("name", .str "searchUsers"),
                         ("arguments", .obj [("query", .str "jd")])]),
        ("id", .num 2)]

/-- An `initialize` request with id 9, used to show the dispatcher keeps
serving after a failure. -/
def initBody9 : Json :=
  .obj [("jsonrpc", .str "2.0"), ("method", .str "initialize"),
        ("params", .obj []), ("id", .num 9)]

/-- Environment accepting the 1-character query the advertised schema
forbids. -/
def envShortQuery : Env :=
  ⟨0, .ok ⟨"tok", 7200⟩,
   fun p => if p = "/v2/users?filter[login]=x&page[size]=5" then .ok (.arr [])
            else .error ⟨404, "not found"⟩⟩

/-- A `searchUsers` call whose `query` has length 1, below the
advertised `minLength` of 2. -/
def shortQueryBody : Json :=
  .obj [("jsonrpc", .str "2.0"), ("method", .str "tools/call"),
        ("params", .obj [("name", .str "searchUsers"),
                         ("arguments", .obj [("query", .str "x")])]),
        ("id", .num 7)]

/-- A `tools/call` whose `params` is the number 5 (not an object). -/
def paramsNumBody : Json :=
  .obj [("jsonrpc", .str "2.0"), ("method", .str "tools/call"),
        ("params", .num 5), ("id", .num 3)]

/-- The `minLength` constraint the `tools/list` payload advertises for
`searchUsers.query`, read off the payload itself. -/
def searchUsersQueryMinLength : Option Json :=
  (toolsListResult.get? "tools").bind fun ts =>
    (ts.index 0).bind fun t =>
      (t.get? "inputSchema").bind fun sch =>
        (sch.get? "properties").bind fun props =>
          (props.get? "query").bind fun q => q.get? "minLength"

/-! ## Claims -/

/-- C1 counterexample: the request `{"jsonrpc":"1.0","id":0}` has an id
(the number 0), yet the `-32600` response carries `null`, because the
code computes `id || null` and `0` is falsy.  The claim's "id is the
request's id if one was present" is therefore false. -/
theorem claim1_counterexample :
    (Json.obj [("jsonrpc", .str "1.0"), ("id", .num 0)]).get? "id" = some (.num 0) ∧
    handleRequest envStub tokenCache0 (.obj [("jsonrpc", .str "1.0"), ("id", .num 0)]) =
      (.ok { jsonrpc := "2.0", result := none,
             error := some ⟨-32600, "Invalid Request"⟩, id := some Json.null },
       tokenCache0, []) ∧
    some Json.null ≠ some (Json.num 0) := by
  decide

/-- C1 amended: for every non-`null` body whose `jsonrpc` is not the
string "2.0", `handleRequest` answers the `-32600` "Invalid Request"
envelope before any dispatch (the cache is untouched and no outbound
call occurs), echoing the request's id when that id is truthy and
`null` when it is absent or falsy (0, "", false, null). -/
theorem claim1_amended (env : Env) (c : NodeCache) (body : Json)
    (hb : body ≠ Json.null)
    (hj : body.get? "jsonrpc" ≠ some (.str "2.0")) :
    handleRequest env c body =
      (.ok { jsonrpc := "2.0", result := none,
             error := some ⟨-32600, "Invalid Request"⟩,
             id := if truthy? (body.get? "id") = true then body.get? "id"
                   else some Json.null },
       c, []) := by
  unfold handleRequest
  rw [if_neg hb]
  dsimp only
  rw [if_pos hj]
  by_cases ht : truthy? (body.get? "id") = true
  · rw [if_pos ht, jsOr_truthy _ _ ht]
  · rw [if_neg ht, jsOr_falsy _ _ (Bool.not_eq_true _ ▸ ht)]

/-- C1 witness: the amended theorem applied to a concrete invalid
request carrying the truthy id 7. -/
theorem claim1_witness :
    (Json.obj [("id", .num 7)] ≠ Json.null) ∧
    ((Json.obj [("id", .num 7)]).get? "jsonrpc" ≠ some (.str "2.0")) ∧
    handleRequest envStub tokenCache0 (.obj [("id", .num 7)]) =
      (.ok { jsonrpc := "2.0", result := none,
             error := some ⟨-32600, "Invalid Request"⟩,
             id := if truthy? ((Json.obj [("id", .num 7)]).get? "id") = true
                   then (Json.obj [("id", .num 7)]).get? "id" else some Json.null },
       tokenCache0, []) :=
  ⟨by decide, by decide, claim1_amended envStub tokenCache0 _ (by decide) (by decide)⟩

/-- C2 counterexample: a valid `initialize` request without an id gets a
response whose `id` member is left `undefined` (omitted on the wire),
not `null` as the claim demands. -/
theorem claim2_counterexample :
    handleRequest envStub tokenCache0
        (.obj [("jsonrpc", .str "2.0"), ("method", .str "initialize")]) =
      (.ok { jsonrpc := "2.0", result := some initializeResult, error := none, id := none },
       tokenCache0, []) ∧
    (none : Option Json) ≠ some Json.null := by
  decide

/-- C2 amended: every response echoes the request's id verbatim whenever
that id is truthy; otherwise the response's id is either the request's
id verbatim (absent stays absent outside the invalid-request branch) or
`null` (the `-32600` branch coalesces falsy and absent ids to `null`). -/
theorem claim2_amended (env : Env) (c : NodeCache) (body : Json) (hb : body ≠ Json.null) :
    ∃ r st calls, handleRequest env c body = (.ok r, st, calls) ∧
      (truthy? (body.get? "id") = true → r.id = body.get? "id") ∧
      (r.id = body.get? "id" ∨ r.id = some Json.null) := by
  rcases handleRequest_shape env c body hb with ⟨r, st, calls, h, _, _, hid⟩
  refine ⟨r, st, calls, h, ?_, ?_⟩
  · intro ht
    rcases hid with h1 | ⟨h2, _⟩
    · exact h1
    · rw [ht] at h2; exact absurd h2 (by simp)
  · rcases hid with h1 | ⟨_, h2⟩
    · exact Or.inl h1
    · exact Or.inr h2

/-- C2 witness: the amended theorem applied to the scenario B request. -/
theorem claim2_witness :
    (scenarioBBody ≠ Json.null) ∧
    ∃ r st calls, handleRequest envScenarioB tokenCache0 scenarioBBody = (.ok r, st, calls) ∧
      (truthy? (scenarioBBody.get? "id") = true → r.id = scenarioBBody.get? "id") ∧
      (r.id = scenarioBBody.get? "id" ∨ r.id = some Json.null) :=
  ⟨by decide, claim2_amended envScenarioB tokenCache0 scenarioBBody (by decide)⟩

/-- C8: on every non-`null` body (in particular on every object
envelope), `handleRequest` never throws: it returns a response, and that
response is "2.0"-tagged and carries exactly one of `result` and
`error`. -/
theorem claim8 (env : Env) (c : NodeCache) (body : Json) (hb : body ≠ Json.null) :
    ∃ r st calls, handleRequest env c body = (.ok r, st, calls) ∧
      r.jsonrpc = "2.0" ∧ r.exactlyOne := by
  rcases handleRequest_shape env c body hb with ⟨r, st, calls, h, hj, hx, _⟩
  exact ⟨r, st, calls, h, hj, hx⟩

/-- C8 witness: the theorem applied to the empty-object envelope. -/
theorem claim8_witness :
    (Json.obj [] ≠ Json.null) ∧
    ∃ r st calls, handleRequest envStub tokenCache0 (.obj []) = (.ok r, st, calls) ∧
      r.jsonrpc = "2.0" ∧ r.exactlyOne :=
  ⟨by decide, claim8 envStub tokenCache0 (.obj []) (by decide)⟩

/-- C3: any exception thrown inside the `try` body (handler failure,
upstream non-2xx, malformed arguments) becomes the fixed
`-32603`/"Internal error" envelope with the request's id, leaking
nothing of the thrown message; concretely, with the OAuth endpoint
answering 401, a `tools/call` resolves to that envelope (the message is
exactly "Internal error"; neither the status nor the body appears), the
cache is unchanged, and the dispatcher answers a subsequent request
normally. -/
theorem claim3 :
    (∀ (env : Env) (c : NodeCache) (body : Json) (e : String)
       (st : NodeCache) (calls : List OutCall),
      body ≠ Json.null →
      body.get? "jsonrpc" = some (.str "2.0") →
      tryDispatch env c (body.get? "method") (body.get? "params") (body.get? "id") =
        (.error e, st, calls) →
      handleRequest env c body =
        (.ok { jsonrpc := "2.0", result := none,
               error := some ⟨-32603, "Internal error"⟩, id := body.get? "id" },
         st, calls)) ∧
    handleRequest envAuthFail tokenCache0 scenarioBBody =
      (.ok { jsonrpc := "2.0", result := none,
             error := some ⟨-32603, "Internal error"⟩, id := some (.num 2) },
       tokenCache0, [.oauthToken]) ∧
    handleRequest envAuthFail tokenCache0 initBody9 =
      (.ok { jsonrpc := "2.0", result := some initializeResult, error := none,
             id := some (.num 9) },
       tokenCache0, []) := by
  refine ⟨?_, by decide, by decide⟩
  intro env c body e st calls hb hj hd
  unfold handleRequest
  rw [if_neg hb]
  dsimp only
  rw [if_neg (not_not_intro hj), hd]

/-- C3 witness: the universally quantified conjunct applied to scenario
D (OAuth 401 during a `tools/call`). -/
theorem claim3_witness :
    (scenarioBBody ≠ Json.null) ∧
    (scenarioBBody.get? "jsonrpc" = some (.str "2.0")) ∧
    tryDispatch envAuthFail tokenCache0 (scenarioBBody.get? "method")
        (scenarioBBody.get? "params") (scenarioBBody.get? "id") =
      (.error "42 API oauth failure: 401 unauthorized", tokenCache0, [.oauthToken]) ∧
    handleRequest envAuthFail tokenCache0 scenarioBBody =
      (.ok { jsonrpc := "2.0", result := none,
             error := some ⟨-32603, "Internal error"⟩,
             id := scenarioBBody.get? "id" },
       tokenCache0, [.oauthToken]) :=
  ⟨by decide, by decide, by decide,
   claim3.1 envAuthFail tokenCache0 scenarioBBody
     "42 API oauth failure: 401 unauthorized" tokenCache0 [.oauthToken]
     (by decide) (by decide) (by decide)⟩

/-- C4: with an empty cache, `getAccessToken` performs one OAuth
exchange and stores the token with expiry `now + (expires_in - 60)`
seconds; a second call while that expiry has not passed is a pure cache
hit (no outbound call, state unchanged); a call after the expiry has
passed performs exactly one new exchange. -/
theorem claim4 (tok tok2 : String) (expIn expIn2 now1 now2 now3 : Int)
    (api : String → Except HttpFailure Json)
    (htok : tok ≠ "") (hexp : 60 < expIn) (hnow : 0 ≤ now1)
    (hwin : now2 ≤ now1 + (expIn - 60) * 1000)
    (hpast : now1 + (expIn - 60) * 1000 < now3) :
    getAccessToken ⟨now1, .ok ⟨tok, expIn⟩, api⟩ tokenCache0 =
      (.ok tok, ⟨some ⟨tok, now1 + (expIn - 60) * 1000⟩⟩, [.oauthToken]) ∧
    getAccessToken ⟨now2, .ok ⟨tok2, expIn2⟩, api⟩ ⟨some ⟨tok, now1 + (expIn - 60) * 1000⟩⟩ =
      (.ok tok, ⟨some ⟨tok, now1 + (expIn - 60) * 1000⟩⟩, []) ∧
    ∃ entry, getAccessToken ⟨now3, .ok ⟨tok2, expIn2⟩, api⟩
        ⟨some ⟨tok, now1 + (expIn - 60) * 1000⟩⟩ =
      (.ok tok2, ⟨some entry⟩, [.oauthToken]) := by
  refine ⟨?_, ?_, ?_⟩
  · unfold getAccessToken NodeCache.get tokenCache0
    dsimp only
    unfold NodeCache.set
    rw [if_neg (show ¬ expIn - 60 = 0 by omega)]
  · unfold getAccessToken NodeCache.get
    dsimp only
    rw [if_neg (show ¬ (now1 + (expIn - 60) * 1000 ≠ 0 ∧
        now1 + (expIn - 60) * 1000 < now2) by omega)]
    dsimp only
    rw [if_pos htok]
  · unfold getAccessToken NodeCache.get
    dsimp only
    rw [if_pos (show (now1 + (expIn - 60) * 1000 ≠ 0 ∧
        now1 + (expIn - 60) * 1000 < now3) by constructor <;> omega)]
    exact ⟨⟨tok2, if expIn2 - 60 = 0 then 0 else now3 + (expIn2 - 60) * 1000⟩, rfl⟩

/-- C4 witness: the theorem at a 7200-second grant fetched at time 0,
re-read at 1 s (hit) and at 7140.001 s (expired, one new exchange). -/
theorem claim4_witness :
    ("T" ≠ "") ∧ ((60 : Int) < 7200) ∧ ((0 : Int) ≤ 0) ∧
    ((1000 : Int) ≤ 0 + (7200 - 60) * 1000) ∧
    ((0 : Int) + (7200 - 60) * 1000 < 7140001) ∧
    (getAccessToken ⟨0, .ok ⟨"T", 7200⟩, fun _ => .error ⟨500, "stub"⟩⟩ tokenCache0 =
      (.ok "T", ⟨some ⟨"T", 0 + (7200 - 60) * 1000⟩⟩, [.oauthToken]) ∧
     getAccessToken ⟨1000, .ok ⟨"U", 7200⟩, fun _ => .error ⟨500, "stub"⟩⟩
        ⟨some ⟨"T", 0 + (7200 - 60) * 1000⟩⟩ =
      (.ok "T", ⟨some ⟨"T", 0 + (7200 - 60) * 1000⟩⟩, []) ∧
     ∃ entry, getAccessToken ⟨7140001, .ok ⟨"U", 7200⟩, fun _ => .error ⟨500, "stub"⟩⟩
        ⟨some ⟨"T", 0 + (7200 - 60) * 1000⟩⟩ =
      (.ok "U", ⟨some entry⟩, [.oauthToken])) :=
  ⟨by decide, by decide, by decide, by decide, by decide,
   claim4 "T" "U" 7200 7200 0 1000 7140001 (fun _ => .error ⟨500, "stub"⟩)
     (by decide) (by decide) (by decide) (by decide) (by decide)⟩

/-- C5: a `tools/call` naming no registered tool, and any method outside
`initialize` / `tools/list` / `tools/call` / `resources/list`, each get
the `-32601` "Method not found" envelope carrying the request's id,
with no state change and no outbound call. -/
theorem claim5 (env : Env) (c : NodeCache) (body : Json)
    (hb : body ≠ Json.null)
    (hj : body.get? "jsonrpc" = some (.str "2.0")) :
    (∀ p, body.get? "method" = some (.str "tools/call") →
      body.get? "params" = some p → p ≠ Json.null →
      p.get? "name" ∉ handledToolValues →
      handleRequest env c body = (.ok (methodNotFound (body.get? "id")), c, [])) ∧
    (body.get? "method" ∉ knownMethodValues →
      handleRequest env c body = (.ok (methodNotFound (body.get? "id")), c, [])) := by
  constructor
  · intro p hm hp hpn hname
    unfold handleRequest
    rw [if_neg hb]
    dsimp only
    rw [if_neg (not_not_intro hj)]
    have hd : tryDispatch env c (body.get? "method") (body.get? "params") (body.get? "id") =
        (.ok (methodNotFound (body.get? "id")), c, []) := by
      unfold tryDispatch
      rw [hm, if_neg (by decide), if_neg (by decide), if_pos rfl, hp]
      cases p with
      | null => exact absurd rfl hpn
      | bool b => exact callTool_unknown env c _ _ _ hname
      | num n => exact callTool_unknown env c _ _ _ hname
      | str s => exact callTool_unknown env c _ _ _ hname
      | arr xs => exact callTool_unknown env c _ _ _ hname
      | obj fs => exact callTool_unknown env c _ _ _ hname
    rw [hd]
  · intro hm
    unfold handleRequest
    rw [if_neg hb]
    dsimp only
    rw [if_neg (not_not_intro hj), tryDispatch_unknown env c _ _ _ hm]

/-- C5 witness: the theorem applied to a `tools/call` naming
"doesNotExist" (scenario C) and, through a second application, to the
unrecognized method "resources/read". -/
theorem claim5_witness :
    handleRequest envStub tokenCache0
        (.obj [("jsonrpc", .str "2.0"), ("method", .str "tools/call"),
               ("params", .obj [("name", .str "doesNotExist"), ("arguments", .obj [])]),
               ("id", .num 5)]) =
      (.ok (methodNotFound (some (.num 5))), tokenCache0, []) ∧
    handleRequest envStub tokenCache0
        (.obj [("jsonrpc", .str "2.0"), ("method", .str "resources/read"),
               ("id", .num 6)]) =
      (.ok (methodNotFound (some (.num 6))), tokenCache0, []) :=
  ⟨(claim5 envStub tokenCache0 _ (by decide) (by decide)).1
      (.obj [("name", .str "doesNotExist"), ("arguments", .obj [])])
      (by decide) (by decide) (by decide) (by decide),
   (claim5 envStub tokenCache0 _ (by decide) (by decide)).2 (by decide)⟩

/-- C7 (scenario B): for the request calling `searchUsers` with query
"jd" and id 2, the dispatcher issues exactly one authenticated GET, to
`/v2/users?filter[login]=jd&page[size]=5` (URL-encoded login filter,
page size 5), and wraps the upstream JSON array as a single text
content item while echoing id 2. -/
theorem claim7 :
    handleRequest envScenarioB tokenCache0 scenarioBBody =
      (.ok (toolSuccess (jsonStringify scenarioBUsers) (some (.num 2))),
       ⟨some ⟨"tok", 7140000⟩⟩,
       [.oauthToken, .apiGet "/v2/users?filter[login]=jd&page[size]=5"]) := by
  decide

/-- C9 counterexample: a `tools/call` whose `params` is the number 5 is
not an object, yet destructuring a primitive does not throw in
JavaScript; the tool name comes out `undefined` and the response is
`-32601`, not the claimed `-32603`. -/
theorem claim9_counterexample :
    handleRequest envStub tokenCache0 paramsNumBody =
      (.ok { jsonrpc := "2.0", result := none,
             error := some ⟨-32601, "Method not found"⟩, id := some (.num 3) },
       tokenCache0, []) ∧
    (-32601 : Int) ≠ -32603 := by
  decide

/-- C9 amended: a `tools/call` with `params` absent or `null` throws in
the destructure, is caught, and answers `-32603` with the request's id;
a `tools/call` whose `params` is any other non-object value does not
crash either: its `name` reads as `undefined` and the response is the
`-32601` envelope. -/
theorem claim9_amended (env : Env) (c : NodeCache) (body : Json)
    (hb : body ≠ Json.null)
    (hj : body.get? "jsonrpc" = some (.str "2.0"))
    (hm : body.get? "method" = some (.str "tools/call")) :
    ((body.get? "params" = none ∨ body.get? "params" = some Json.null) →
      handleRequest env c body =
        (.ok { jsonrpc := "2.0", result := none,
               error := some ⟨-32603, "Internal error"⟩, id := body.get? "id" },
         c, [])) ∧
    (∀ p, body.get? "params" = some p → p ≠ Json.null → p.get? "name" = none →
      handleRequest env c body = (.ok (methodNotFound (body.get? "id")), c, [])) := by
  constructor
  · intro hcase
    unfold handleRequest
    rw [if_neg hb]
    dsimp only
    rw [if_neg (not_not_intro hj)]
    rcases hcase with h | h
    · have hd : tryDispatch env c (body.get? "method") (body.get? "params") (body.get? "id") =
          (.error "TypeError: Cannot destructure property of undefined", c, []) := by
        unfold tryDispatch
        rw [hm, if_neg (by decide), if_neg (by decide), if_pos rfl, h]
      rw [hd]
    · have hd : tryDispatch env c (body.get? "method") (body.get? "params") (body.get? "id") =
          (.error "TypeError: Cannot destructure property of null", c, []) := by
        unfold tryDispatch
        rw [hm, if_neg (by decide), if_neg (by decide), if_pos rfl, h]
      rw [hd]
  · intro p hp hpn hname0
    unfold handleRequest
    rw [if_neg hb]
    dsimp only
    rw [if_neg (not_not_intro hj)]
    have hd : tryDispatch env c (body.get? "method") (body.get? "params") (body.get? "id") =
        (.ok (methodNotFound (body.get? "id")), c, []) := by
      unfold tryDispatch
      rw [hm, if_neg (by decide), if_neg (by decide), if_pos rfl, hp]
      cases p with
      | null => exact absurd rfl hpn
      | bool b => exact callTool_unknown env c _ _ _ (by rw [hname0]; decide)
      | num n => exact callTool_unknown env c _ _ _ (by rw [hname0]; decide)
      | str s => exact callTool_unknown env c _ _ _ (by rw [hname0]; decide)
      | arr xs => exact callTool_unknown env c _ _ _ (by rw [hname0]; decide)
      | obj fs => exact callTool_unknown env c _ _ _ (by rw [hname0]; decide)
    rw [hd]

/-- C9 witness: the amended theorem applied to a `tools/call` with no
`params` member (absent, so the destructure throws and is caught). -/
theorem claim9_witness :
    handleRequest envStub tokenCache0
        (.obj [("jsonrpc", .str "2.0"), ("method", .str "tools/call"), ("id", .num 4)]) =
      (.ok { jsonrpc := "2.0", result := none,
             error := some ⟨-32603, "Internal error"⟩, id := some (.num 4) },
       tokenCache0, []) :=
  (claim9_amended envStub tokenCache0 _ (by decide) (by decide) (by decide)).1
    (Or.inl (by decide))

/-- C6 counterexample: the `tools/list` payload advertises
`minLength: 2` for `searchUsers.query`, yet the 1-character query "x"
is not rejected — the call goes upstream and succeeds, so the advertised
constraints are not enforced by `tools/call`. -/
theorem claim6_counterexample :
    searchUsersQueryMinLength = some (.num 2) ∧
    handleRequest envShortQuery tokenCache0 shortQueryBody =
      (.ok (toolSuccess (jsonStringify (.arr [])) (some (.num 7))),
       ⟨some ⟨"tok", 7140000⟩⟩,
       [.oauthToken, .apiGet "/v2/users?filter[login]=x&page[size]=5"]) := by
  decide

/-- C6 amended: the set of tool names advertised by `tools/list` equals
the set of names handled by `tools/call` (any handled name reaches its
handler and any other name gets `-32601`), but the manual transport
performs no argument validation: arguments violating the advertised
constraints are accepted and forwarded upstream. -/
theorem claim6_amended :
    advertisedToolNames = handledToolNames ∧
    (∀ nm ∈ handledToolValues, ∀ (env : Env) (c : NodeCache) (args id : Option Json),
      stepShape (callTool env c nm args id) id) ∧
    (∀ (nm args id : Option Json), nm ∉ handledToolValues →
      ∀ (env : Env) (c : NodeCache),
      callTool env c nm args id = (.ok (methodNotFound id), c, [])) ∧
    handleRequest envShortQuery tokenCache0 shortQueryBody =
      (.ok (toolSuccess (jsonStringify (.arr [])) (some (.num 7))),
       ⟨some ⟨"tok", 7140000⟩⟩,
       [.oauthToken, .apiGet "/v2/users?filter[login]=x&page[size]=5"]) := by
  refine ⟨by decide, ?_, ?_, by decide⟩
  · intro nm hnm env c args id
    exact callTool_known env c args id nm hnm
  · intro nm args id h env c
    exact callTool_unknown env c nm args id h

/-- C6 witness: the amended theorem's handled-name conjunct applied to
`getProject`. -/
theorem claim6_witness :
    ((some (Json.str "getProject") : Option Json) ∈ handledToolValues) ∧
    stepShape (callTool envStub tokenCache0 (some (.str "getProject")) none none) none :=
  ⟨by decide,
   claim6_amended.2.1 (some (.str "getProject")) (by decide) envStub tokenCache0 none none⟩

/-! ## Trace lemmas for C10 -/

/-- The first `args` access succeeds on any non-null object-or-primitive
value. -/
theorem argsObject_some (a : Json) (h : a ≠ Json.null) : argsObject (some a) = .ok a := by
  cases a with
  | null => exact absurd rfl h
  | bool b => rfl
  | num n => rfl
  | str s => rfl
  | arr xs => rfl
  | obj fs => rfl

/-- `getAccessToken` never issues an authenticated GET. -/
theorem getAccessToken_no_apiGet (env : Env) (c : NodeCache) (q : String) :
    OutCall.apiGet q ∉ (getAccessToken env c).2.2 := by
  unfold getAccessToken
  dsimp only
  split
  · split
    · simp
    · split <;> simp
  · split <;> simp

/-- Every GET in an `apiRequest` trace is to the requested path. -/
theorem apiRequest_calls (env : Env) (c : NodeCache) (path : String) (q : String)
    (hq : OutCall.apiGet q ∈ (apiRequest env c path).2.2) : q = path := by
  unfold apiRequest at hq
  split at hq
  · rename_i e c1 calls heq
    have hno := getAccessToken_no_apiGet env c q
    rw [heq] at hno
    exact absurd hq hno
  · rename_i t c1 calls heq
    split at hq
    · rw [List.mem_append] at hq
      rcases hq with hq | hq
      · have hno := getAccessToken_no_apiGet env c q
        rw [heq] at hno
        exact absurd hq hno
      · simpa using hq
    · rw [List.mem_append] at hq
      rcases hq with hq | hq
      · have hno := getAccessToken_no_apiGet env c q
        rw [heq] at hno
        exact absurd hq hno
      · simpa using hq

/-- Every GET `getCursusLevel` issues goes to its cursus-users URL. -/
theorem callGetCursusLevel_trace (env : Env) (c : NodeCache) (a : Json) (id : Option Json)
    (hnn : a ≠ Json.null) (q : String)
    (hq : OutCall.apiGet q ∈ (callGetCursusLevel env c (some a) id).2.2) :
    q = "/v2/users/" ++ jsToString (a.get? "userId") ++ "/cursus_users?filter[cursus_id]=" ++
        (jsOr (a.get? "cursusId") (Json.num 21)).toJSString := by
  unfold callGetCursusLevel at hq
  rw [argsObject_some a hnn] at hq
  dsimp only at hq
  split at hq
  · rename_i e c1 calls heq
    exact apiRequest_calls env c _ q (by rw [heq]; exact hq)
  · rename_i cursusUsers c1 calls heq
    split at hq
    · exact apiRequest_calls env c _ q (by rw [heq]; exact hq)
    · split at hq
      · split at hq
        · exact apiRequest_calls env c _ q (by rw [heq]; exact hq)
        · exact apiRequest_calls env c _ q (by rw [heq]; exact hq)
      · exact apiRequest_calls env c _ q (by rw [heq]; exact hq)

/-- A successful `getCursusLevel` flow produces the "Level … in cursus …"
text. -/
theorem callGetCursusLevel_level (env : Env) (c : NodeCache) (a : Json) (id : Option Json)
    (hnn : a ≠ Json.null)
    (t : String) (st2 : NodeCache) (calls2 : List OutCall)
    (hga : getAccessToken env c = (.ok t, st2, calls2))
    (v : Json) (lvl : Option Json)
    (hv : env.api ("/v2/users/" ++ jsToString (a.get? "userId") ++
            "/cursus_users?filter[cursus_id]=" ++
            (jsOr (a.get? "cursusId") (Json.num 21)).toJSString) = .ok v)
    (hlen : truthy? (v.get? "length") = true)
    (hlvl : jsProp (v.index 0) "level" = .ok lvl) :
    (callGetCursusLevel env c (some a) id).1 =
      .ok (toolSuccess ("Level " ++ jsToString lvl ++ " in cursus " ++
        (jsOr (a.get? "cursusId") (Json.num 21)).toJSString) id) := by
  unfold callGetCursusLevel
  rw [argsObject_some a hnn]
  dsimp only
  unfold apiRequest
  rw [hga]
  dsimp only
  rw [hv]
  dsimp only
  have hvnn : v ≠ Json.null := by
    intro h; rw [h] at hlen; exact absurd hlen (by decide)
  rw [show jsProp (some v) "length" = .ok (v.get? "length") from by
    cases v <;> first | (exact absurd rfl hvnn) | rfl]
  dsimp only
  rw [if_pos hlen, hlvl]

/-- C10: a `tools/call` of `getCursusLevel` whose `cursusId` argument is
absent, `null`, or the number 0 substitutes cursus 21: every GET it
issues goes to `…filter[cursus_id]=21` (in particular an explicit 0 is
never sent upstream), and on a successful flow the response text reads
"Level … in cursus 21". -/
theorem claim10 (env : Env) (c : NodeCache) (body p a : Json)
    (hb : body ≠ Json.null)
    (hj : body.get? "jsonrpc" = some (.str "2.0"))
    (hm : body.get? "method" = some (.str "tools/call"))
    (hp : body.get? "params" = some p)
    (hname : p.get? "name" = some (.str "getCursusLevel"))
    (hargs : p.get? "arguments" = some a)
    (hnn : a ≠ Json.null)
    (hc : a.get? "cursusId" = none ∨ a.get? "cursusId" = some Json.null ∨
          a.get? "cursusId" = some (.num 0)) :
    (∀ q, OutCall.apiGet q ∈ (handleRequest env c body).2.2 →
       q = "/v2/users/" ++ jsToString (a.get? "userId") ++
           "/cursus_users?filter[cursus_id]=21") ∧
    (∀ (t : String) (st2 : NodeCache) (calls2 : List OutCall) (v : Json) (lvl : Option Json),
       getAccessToken env c = (.ok t, st2, calls2) →
       env.api ("/v2/users/" ++ jsToString (a.get? "userId") ++
           "/cursus_users?filter[cursus_id]=21") = .ok v →
       truthy? (v.get? "length") = true →
       jsProp (v.index 0) "level" = .ok lvl →
       (handleRequest env c body).1 =
         .ok (toolSuccess ("Level " ++ jsToString lvl ++ " in cursus 21")
           (body.get? "id"))) := by
  have hcf : truthy? (a.get? "cursusId") = false := by
    rcases hc with h | h | h <;> rw [h] <;> rfl
  have hcursus : (jsOr (a.get? "cursusId") (Json.num 21)).toJSString = "21" := by
    rw [jsOr_falsy _ _ hcf]
    decide
  have hurl : "/v2/users/" ++ jsToString (a.get? "userId") ++
      "/cursus_users?filter[cursus_id]=" ++
      (jsOr (a.get? "cursusId") (Json.num 21)).toJSString =
      "/v2/users/" ++ jsToString (a.get? "userId") ++
      "/cursus_users?filter[cursus_id]=21" := by
    rw [hcursus, String.append_assoc]
    exact congrArg (fun s => ("/v2/users/" ++ jsToString (a.get? "userId")) ++ s) (by decide)
  have hstep : tryDispatch env c (body.get? "method") (body.get? "params") (body.get? "id") =
      callGetCursusLevel env c (some a) (body.get? "id") := by
    unfold tryDispatch
    rw [hm, if_neg (by decide), if_neg (by decide), if_pos rfl, hp]
    cases p with
    | null => exact absurd hname (by rw [show Json.get? Json.null "name" = none from rfl]; simp)
    | bool b => exact absurd hname (by rw [show Json.get? (Json.bool b) "name" = none from rfl]; simp)
    | num n => exact absurd hname (by rw [show Json.get? (Json.num n) "name" = none from rfl]; simp)
    | str s => exact absurd hname (by simp [Json.get?])
    | arr xs => exact absurd hname (by simp [Json.get?])
    | obj fs =>
      show callTool env c ((Json.obj fs).get? "name") ((Json.obj fs).get? "arguments") _ = _
      unfold callTool
      rw [hname, if_neg (by decide), if_pos rfl, hargs]
  have hhr : handleRequest env c body =
      (match callGetCursusLevel env c (some a) (body.get? "id") with
       | (.ok resp, c1, calls) => (.ok resp, c1, calls)
       | (.error _e, c1, calls) =>
         (.ok { jsonrpc := "2.0", result := none,
                error := some ⟨-32603, "Internal error"⟩, id := body.get? "id" },
          c1, calls)) := by
    unfold handleRequest
    rw [if_neg hb]
    dsimp only
    rw [if_neg (not_not_intro hj), hstep]
  constructor
  · intro q hq
    rw [hhr] at hq
    have hq2 : OutCall.apiGet q ∈ (callGetCursusLevel env c (some a) (body.get? "id")).2.2 := by
      revert hq
      generalize callGetCursusLevel env c (some a) (body.get? "id") = out
      rcases out with ⟨res, st, calls⟩
      cases res <;> exact fun h => h
    have := callGetCursusLevel_trace env c a (body.get? "id") hnn q hq2
    rw [this]
    exact hurl
  · intro t st2 calls2 v lvl hga hv hlen hlvl
    rw [hhr]
    have hsucc := callGetCursusLevel_level env c a (body.get? "id") hnn t st2 calls2 hga
      v lvl (by rw [hurl]; exact hv) hlen hlvl
    have htext : "Level " ++ jsToString lvl ++ " in cursus " ++
        (jsOr (a.get? "cursusId") (Json.num 21)).toJSString =
        "Level " ++ jsToString lvl ++ " in cursus 21" := by
      rw [hcursus, String.append_assoc]
      exact congrArg (fun s => ("Level " ++ jsToString lvl) ++ s) (by decide)
    rw [htext] at hsucc
    revert hsucc
    generalize callGetCursusLevel env c (some a) (body.get? "id") = out
    rcases out with ⟨res, st, calls⟩
    intro hsucc
    cases res with
    | error e => exact absurd hsucc (by simp)
    | ok r => exact hsucc

/-- C10 witness: the theorem applied to a `getCursusLevel` call with
`userId` 77 and an explicit `cursusId` of 0, against an upstream whose
cursus-users array reports level 11. -/
theorem claim10_witness :
    (handleRequest
        ⟨0, .ok ⟨"tok", 7200⟩,
         fun pth => if pth = "/v2/users/77/cursus_users?filter[cursus_id]=21"
                    then .ok (.arr [.obj [("level", .num 11)]])
                    else .error ⟨404, "not found"⟩⟩
        tokenCache0
        (.obj [("jsonrpc", .str "2.0"), ("method", .str "tools/call"),
               ("params", .obj [("name", .str "getCursusLevel"),
                                ("arguments", .obj [("userId", .num 77),
                                                    ("cursusId", .num 0)])]),
               ("id", .num 4)])).1 =
      .ok (toolSuccess "Level 11 in cursus 21" (some (.num 4))) :=
  (claim10
    ⟨0, .ok ⟨"tok", 7200⟩,
     fun pth => if pth = "/v2/users/77/cursus_users?filter[cursus_id]=21"
                then .ok (.arr [.obj [("level", .num 11)]])
                else .error ⟨404, "not found"⟩⟩
    tokenCache0 _
    (.obj [("name", .str "getCursusLevel"),
           ("arguments", .obj [("userId", .num 77), ("cursusId", .num 0)])])
    (.obj [("userId", .num 77), ("cursusId", .num 0)])
    (by decide) (by decide) (by decide) (by decide) (by decide) (by decide)
    (by decide) (Or.inr (Or.inr (by decide)))).2
    "tok" ⟨some ⟨"tok", 7140000⟩⟩ [.oauthToken]
    (.arr [.obj [("level", .num 11)]]) (some (.num 11))
    (by decide) (by decide) (by decide) (by decide)

end FortyTwoMcp
